import Mathlib

/-!
# NFC PN547 transport driver: `drivers/nfc/pn547.c`

A shallow embedding of the character-device operations of the driver
(`pn547_disable_irq`, `pn547_dev_irq_handler`, `pn547_dev_read`,
`pn547_dev_write`, `pn547_dev_ioctl`, `pn547_parse_dt`, `pn547_probe`).

The device state is the one field of `struct pn547_dev` that the operations
mutate (`irq_enabled`) together with a chronological log of every call the
driver makes into the kernel (locks, interrupt-line enable/disable, GPIO
accesses, delays, bus transfers, user copies, resource acquisition and
release).  What the kernel answers (GPIO level, `wait_event_interruptible`
result, bus transfer result, user-copy result, allocation results) is an
explicit environment argument of each operation.  Logging calls
(`pr_info`, `pr_err`, `printk`, `dev_err`) have no effect on the state and are
not recorded, except where their argument dereferences a pointer.
-/

namespace Pn547

/-! ## Constants -/

/-- The constant `#define MAX_BUFFER_SIZE 512` (line 40). -/
def MAX_BUFFER_SIZE : Nat := 512

/-- Errno values of the kernel (`include/asm-generic/errno-base.h`). -/
def EIO : Int := 5
def EAGAIN : Int := 11
def ENOMEM : Int := 12
def EFAULT : Int := 14
def ENODEV : Int := 19
def EINVAL : Int := 22

/-- The value `IRQ_HANDLED` of `enum irqreturn`. -/
def IRQ_HANDLED : Nat := 1

/-- Width in bits of `size_t` on the 32-bit ARM targets of this kernel tree. -/
def SIZE_T_BITS : Nat := 32

/-- Value of a C `int` after conversion to `size_t`, as happens in the mixed
comparisons `ret == count` and `ret > count`. -/
def to_size_t (r : Int) : Nat := (r % (2 : Int) ^ SIZE_T_BITS).toNat

/-- The range of a C `int`. -/
def IsInt (r : Int) : Prop := -2147483648 ≤ r ∧ r ≤ 2147483647

instance (r : Int) : Decidable (IsInt r) := by unfold IsInt; infer_instance

/-! ## Events and device state -/

/-- The three GPIO lines of `struct pn547_dev`: `ven_gpio` (enable),
`firm_gpio` (firmware select) and `irq_gpio` (interrupt source). -/
inductive Gpio where
  | ven
  | firm
  | irq
  deriving DecidableEq, Repr

/-- Calls made by the driver, in the order they are made. -/
inductive Event where
  | mutex_lock
  | mutex_unlock
  | spin_lock_irqsave
  | spin_unlock_irqrestore
  | set_irq_enabled (b : Bool)
  | enable_irq
  | disable_irq_nosync
  | gpio_get_value (g : Gpio)
  | gpio_set_value (g : Gpio) (v : Nat)
  | msleep (ms : Nat)
  | wait_event_interruptible
  | wake_up
  | i2c_master_recv (count : Nat)
  | i2c_master_send (count : Nat)
  | copy_to_user (n : Nat)
  | copy_from_user (n : Nat)
  | kzalloc_pdata
  | kzalloc_dev
  | kfree_dev
  | null_deref_pdata
  | of_get_named_gpio_flags (g : Gpio)
  | i2c_check_functionality
  | gpio_tlmm_config (g : Gpio)
  | gpio_request (g : Gpio)
  | gpio_direction_output (g : Gpio) (v : Nat)
  | gpio_free (g : Gpio)
  | init_waitqueue_head
  | mutex_init
  | spin_lock_init
  | mutex_destroy
  | misc_register
  | misc_deregister
  | request_irq
  | i2c_set_clientdata
  deriving DecidableEq, Repr

/-- Device state: the `irq_enabled` flag of `struct pn547_dev` and the log. -/
structure Dev where
  irq_enabled : Bool
  trace : List Event
  deriving DecidableEq, Repr

/-- Record one call. -/
def Dev.emit (d : Dev) (e : Event) : Dev :=
  { d with trace := d.trace ++ [e] }

/-- The assignment `pn547_dev->irq_enabled = b`. -/
def Dev.assign_irq_enabled (d : Dev) (b : Bool) : Dev :=
  { irq_enabled := b, trace := d.trace ++ [Event.set_irq_enabled b] }

/-! ## Interrupt bookkeeping (lines 56-78) -/

/-- Function `pn547_disable_irq` (lines 56-66). -/
def pn547_disable_irq (d : Dev) : Dev :=
  let d1 := d.emit Event.spin_lock_irqsave
  let d2 :=
    if d1.irq_enabled then
      (d1.emit Event.disable_irq_nosync).assign_irq_enabled false
    else d1
  d2.emit Event.spin_unlock_irqrestore

/-- Function `pn547_dev_irq_handler` (lines 68-78). -/
def pn547_dev_irq_handler (d : Dev) : Dev × Nat :=
  let d1 := pn547_disable_irq d
  let d2 := d1.emit Event.wake_up
  (d2, IRQ_HANDLED)

/-- The caller sleeps in `wait_event_interruptible` (line 102); while it
sleeps the interrupt dispatcher runs the handler `n` times. -/
def wait_event_interruptible (d : Dev) (n : Nat) : Dev :=
  (fun s => (pn547_dev_irq_handler s).1)^[n] (d.emit Event.wait_event_interruptible)

/-! ## read (lines 80-134) -/

/-- What the kernel answers during one `read` call. -/
structure ReadEnv where
  /-- value of `gpio_get_value(irq_gpio)` at line 94 -/
  irq_level : Int
  /-- whether `filp->f_flags & O_NONBLOCK` is non-zero -/
  nonblock : Bool
  /-- number of handler runs while the caller is suspended -/
  irqs_in_wait : Nat
  /-- result of `wait_event_interruptible` -/
  wait_ret : Int
  /-- result of `i2c_master_recv` -/
  recv_ret : Int
  /-- bytes `copy_to_user` is unable to copy (capped at the request) -/
  copy_left : Nat

/-- Lines 112-129 of `pn547_dev_read`: the bus receive and what follows. -/
def pn547_dev_read_data (d : Dev) (count : Nat) (env : ReadEnv) : Dev × Int :=
  let d1 := d.emit (Event.i2c_master_recv count)
  let ret := env.recv_ret
  let d2 := d1.emit Event.mutex_unlock
  if ret < 0 then (d2, ret)
  else if to_size_t ret > count then (d2, - EIO)
  else
    let d3 := d2.emit (Event.copy_to_user ret.toNat)
    if min env.copy_left ret.toNat ≠ 0 then (d3, - EFAULT)
    else (d3, ret)

/-- Function `pn547_dev_read` (lines 80-134). -/
def pn547_dev_read (d : Dev) (count : Nat) (env : ReadEnv) : Dev × Int :=
  let count := if count > MAX_BUFFER_SIZE then MAX_BUFFER_SIZE else count
  let d1 := d.emit Event.mutex_lock
  let d2 := d1.emit (Event.gpio_get_value Gpio.irq)
  if env.irq_level = 0 then
    if env.nonblock then
      (d2.emit Event.mutex_unlock, - EAGAIN)
    else
      let d3 := d2.assign_irq_enabled true
      let d4 := d3.emit Event.enable_irq
      let d5 := wait_event_interruptible d4 env.irqs_in_wait
      let ret := env.wait_ret
      let d6 := pn547_disable_irq d5
      if ret ≠ 0 then (d6.emit Event.mutex_unlock, ret)
      else pn547_dev_read_data d6 count env
  else pn547_dev_read_data d2 count env

/-! ## write (lines 136-170) -/

/-- What the kernel answers during one `write` call. -/
structure WriteEnv where
  /-- bytes `copy_from_user` is unable to copy (capped at the request) -/
  copy_left : Nat
  /-- result of the `k`-th call (from 0) of `i2c_master_send` -/
  send_ret : Nat → Int

/-- The loop `while (i--) { ... }` of lines 157-166: `i` is the value of the
counter when the condition is tested, `k` the number of sends made so far. -/
def pn547_dev_write_loop (env : WriteEnv) (count : Nat) : Nat → Nat → Dev → Dev × Int
  | 0, _, d => (d, - EIO)
  | i + 1, k, d =>
    let d1 := d.emit (Event.i2c_master_send count)
    let ret := env.send_ret k
    if to_size_t ret = count then (d1, ret)
    else pn547_dev_write_loop env count i (k + 1) (d1.emit (Event.msleep 20))

/-- Function `pn547_dev_write` (lines 136-170); the counter starts at `int i = 2`. -/
def pn547_dev_write (d : Dev) (count : Nat) (env : WriteEnv) : Dev × Int :=
  let count := if count > MAX_BUFFER_SIZE then MAX_BUFFER_SIZE else count
  let d1 := d.emit (Event.copy_from_user count)
  if min env.copy_left count ≠ 0 then (d1, - EFAULT)
  else pn547_dev_write_loop env count 2 0 d1

/-! ## ioctl (lines 193-234) -/

/-- Function `pn547_dev_ioctl` (lines 193-234).  The command code `PN547_SET_PWR` is a
macro of `linux/pn547.h` and is taken as the parameter `SET_PWR`. -/
def pn547_dev_ioctl (SET_PWR : Nat) (d : Dev) (cmd arg : Nat) : Dev × Int :=
  if cmd = SET_PWR then
    if arg = 2 then
      let d1 := d.emit (Event.gpio_set_value Gpio.ven 1)
      let d2 := d1.emit (Event.gpio_set_value Gpio.firm 1)
      let d3 := d2.emit (Event.msleep 20)
      let d4 := d3.emit (Event.gpio_set_value Gpio.ven 0)
      let d5 := d4.emit (Event.msleep 60)
      let d6 := d5.emit (Event.gpio_set_value Gpio.ven 1)
      let d7 := d6.emit (Event.msleep 20)
      (d7, 0)
    else if arg = 1 then
      let d1 := d.emit (Event.gpio_set_value Gpio.firm 0)
      let d2 := d1.emit (Event.gpio_set_value Gpio.ven 1)
      let d3 := d2.emit (Event.msleep 20)
      (d3, 0)
    else if arg = 0 then
      let d1 := d.emit (Event.gpio_set_value Gpio.firm 0)
      let d2 := d1.emit (Event.gpio_set_value Gpio.ven 0)
      let d3 := d2.emit (Event.msleep 60)
      (d3, 0)
    else (d, - EINVAL)
  else (d, - EINVAL)

/-! ## probe (lines 249-404) -/

/-- What the kernel answers during one `probe` call. -/
structure ProbeEnv where
  /-- the first `kzalloc` (platform data) returns a non-NULL pointer -/
  pdata_alloc_ok : Bool
  /-- results of the three `of_get_named_gpio_flags` calls -/
  of_irq_gpio : Int
  of_ven_gpio : Int
  of_firm_gpio : Int
  /-- result of `i2c_check_functionality` is non-zero -/
  i2c_func_ok : Bool
  /-- results of the three `gpio_request` calls -/
  req_irq_gpio : Int
  req_ven_gpio : Int
  req_firm_gpio : Int
  /-- the second `kzalloc` (device structure) returns a non-NULL pointer -/
  dev_alloc_ok : Bool
  /-- result of `misc_register` -/
  misc_register_ret : Int
  /-- result of `request_irq` -/
  request_irq_ret : Int

/-- Function `pn547_parse_dt` (lines 249-270).  The fields of
`struct pn547_i2c_platform_data` are declared in `linux/pn547.h`; they are
read here as signed, as the `< 0` tests of the function presuppose. -/
def pn547_parse_dt (d : Dev) (env : ProbeEnv) : Dev × Int :=
  let d1 := d.emit (Event.of_get_named_gpio_flags Gpio.irq)
  if env.of_irq_gpio < 0 then (d1, env.of_irq_gpio)
  else
    let d2 := d1.emit (Event.of_get_named_gpio_flags Gpio.ven)
    if env.of_ven_gpio < 0 then (d2, env.of_ven_gpio)
    else
      let d3 := d2.emit (Event.of_get_named_gpio_flags Gpio.firm)
      if env.of_firm_gpio < 0 then (d3, env.of_firm_gpio)
      else (d3, 0)

/-- Label `err_ven` (lines 400-403). -/
def err_ven (d : Dev) (ret : Int) : Dev × Option Int :=
  (d.emit (Event.gpio_free Gpio.irq), some ret)

/-- Label `err_firm` (lines 397-399), falling through to `err_ven`. -/
def err_firm (d : Dev) (ret : Int) : Dev × Option Int :=
  err_ven (d.emit (Event.gpio_free Gpio.ven)) ret

/-- Label `err_dt` (lines 394-396), falling through to `err_firm`. -/
def err_dt (d : Dev) (ret : Int) : Dev × Option Int :=
  err_firm (d.emit (Event.gpio_free Gpio.firm)) ret

/-- Label `err_exit` (lines 392-393), falling through to `err_dt`. -/
def err_exit (d : Dev) (ret : Int) : Dev × Option Int :=
  err_dt d ret

/-- Label `err_misc_register` (lines 388-391), falling through to `err_exit`. -/
def err_misc_register (d : Dev) (ret : Int) : Dev × Option Int :=
  err_exit ((d.emit Event.mutex_destroy).emit Event.kfree_dev) ret

/-- Label `err_request_irq_failed` (lines 385-387), falling through. -/
def err_request_irq_failed (d : Dev) (ret : Int) : Dev × Option Int :=
  err_misc_register (d.emit Event.misc_deregister) ret

/-- Function `pn547_probe` (lines 273-404).  The result is `none` when the function
does not return: with the platform data pointer NULL, `goto err_exit` reaches
the `printk` of line 395, which reads `platform_data->firm_gpio`. -/
def pn547_probe (d : Dev) (env : ProbeEnv) : Dev × Option Int :=
  let d1 := d.emit Event.kzalloc_pdata
  if env.pdata_alloc_ok = false then
    (d1.emit Event.null_deref_pdata, none)
  else
    let p := pn547_parse_dt d1 env
    if p.2 ≠ 0 then err_dt p.1 p.2
    else
      let d2 := p.1.emit Event.i2c_check_functionality
      if env.i2c_func_ok = false then (d2, some (- ENODEV))
      else
        let d3 := ((d2.emit (Event.gpio_tlmm_config Gpio.irq)).emit
          (Event.gpio_tlmm_config Gpio.ven)).emit (Event.gpio_tlmm_config Gpio.firm)
        -- line 312: a failure is printed and the function goes on
        let d4 := d3.emit (Event.gpio_request Gpio.irq)
        let d5 := d4.emit (Event.gpio_request Gpio.ven)
        if env.req_ven_gpio ≠ 0 then err_ven d5 env.req_ven_gpio
        else
          let d6 := d5.emit (Event.gpio_direction_output Gpio.ven 0)
          let d7 := d6.emit (Event.gpio_request Gpio.firm)
          if env.req_firm_gpio ≠ 0 then err_firm d7 env.req_firm_gpio
          else
            let d8 := d7.emit (Event.gpio_direction_output Gpio.firm 0)
            let d9 := d8.emit Event.kzalloc_dev
            if env.dev_alloc_ok = false then err_exit d9 (- ENOMEM)
            else
              -- the device structure is zero-filled
              let d10 : Dev := { d9 with irq_enabled := false }
              let d11 := ((d10.emit Event.init_waitqueue_head).emit
                Event.mutex_init).emit Event.spin_lock_init
              let d12 := d11.emit Event.misc_register
              if env.misc_register_ret ≠ 0 then
                err_misc_register d12 env.misc_register_ret
              else
                let d13 := d12.assign_irq_enabled true
                let d14 := d13.emit Event.request_irq
                if env.request_irq_ret ≠ 0 then
                  err_request_irq_failed d14 env.request_irq_ret
                else
                  let d15 := pn547_disable_irq d14
                  let d16 := d15.emit Event.i2c_set_clientdata
                  (d16, some 0)

/-! ## Sequences of operations -/

/-- One completed operation on an open device: a `read` call or one run of
the interrupt handler. -/
inductive Op where
  | read (count : Nat) (env : ReadEnv)
  | irq

/-- Effect of one operation on the device. -/
def Op.step (d : Dev) : Op → Dev
  | Op.read count env => (pn547_dev_read d count env).1
  | Op.irq => (pn547_dev_irq_handler d).1

/-- Operations executed one after another. -/
def run (d : Dev) (ops : List Op) : Dev := ops.foldl Op.step d

/-- Consecutive `read` calls, each with its length and environment. -/
def run_reads (d : Dev) (calls : List (Nat × ReadEnv)) : Dev :=
  calls.foldl (fun s c => (pn547_dev_read s c.1 c.2).1) d

/-! ## Observations on the log -/

/-- Calls that enable or disable the interrupt line. -/
def Event.is_irq_call : Event → Bool
  | Event.enable_irq => true
  | Event.disable_irq_nosync => true
  | _ => false

/-- Assignments to `irq_enabled`. -/
def Event.is_flag_write : Event → Bool
  | Event.set_irq_enabled _ => true
  | _ => false

/-- Bus transfers. -/
def Event.is_bus : Event → Bool
  | Event.i2c_master_recv _ => true
  | Event.i2c_master_send _ => true
  | _ => false

/-- GPIO writes and delays. -/
def Event.is_gpio_or_delay : Event → Bool
  | Event.gpio_set_value _ _ => true
  | Event.msleep _ => true
  | _ => false

/-- The enable/disable calls of a log, in order. -/
def irq_calls (t : List Event) : List Event := t.filter Event.is_irq_call

/-- The assignments to `irq_enabled` of a log, in order. -/
def flag_writes (t : List Event) : List Event := t.filter Event.is_flag_write

/-- The bus transfers of a log, in order. -/
def bus_events (t : List Event) : List Event := t.filter Event.is_bus

/-- Whether `read_mutex` is held at the end of a log. -/
def read_mutex_held (t : List Event) : Bool :=
  t.foldl (fun h e =>
    match e with
    | Event.mutex_lock => true
    | Event.mutex_unlock => false
    | _ => h) false

/-- Walk a log with the state `held` of `irq_enabled_lock`: every assignment
to `irq_enabled` is made with the lock held. -/
def flag_writes_locked : Bool → List Event → Bool
  | _, [] => true
  | _, Event.spin_lock_irqsave :: t => flag_writes_locked true t
  | _, Event.spin_unlock_irqrestore :: t => flag_writes_locked false t
  | held, Event.set_irq_enabled _ :: t => held && flag_writes_locked held t
  | held, _ :: t => flag_writes_locked held t

/-- Events a call added to the log. -/
def emitted (before after : Dev) : List Event :=
  after.trace.drop before.trace.length

/-- A device with an empty log. -/
def dev0 (armed : Bool) : Dev := { irq_enabled := armed, trace := [] }

/-- A kernel in which every step of `probe` succeeds. -/
def probe_all_ok : ProbeEnv :=
  { pdata_alloc_ok := true, of_irq_gpio := 17, of_ven_gpio := 18, of_firm_gpio := 19,
    i2c_func_ok := true, req_irq_gpio := 0, req_ven_gpio := 0, req_firm_gpio := 0,
    dev_alloc_ok := true, misc_register_ret := 0, request_irq_ret := 0 }

/-- Number of `enable_irq` calls minus the armed flag, and number of
`disable_irq_nosync` calls, compared between two logs: `after` extends
`before` by events in which every enable is matched by one disable. -/
def balanced (before after : Dev) : Prop :=
  after.trace.count Event.enable_irq + before.trace.count Event.disable_irq_nosync +
      (if before.irq_enabled then 1 else 0) =
    before.trace.count Event.enable_irq + after.trace.count Event.disable_irq_nosync +
      (if after.irq_enabled then 1 else 0)

/-- The log of `after` is the log of `before` followed by further events. -/
def extends_log (before after : Dev) : Prop :=
  ∃ evs, after.trace = before.trace ++ evs

/-! ## Basic facts about the log -/

@[simp] theorem emit_trace (d : Dev) (e : Event) : (d.emit e).trace = d.trace ++ [e] := rfl

@[simp] theorem emit_irq_enabled (d : Dev) (e : Event) :
    (d.emit e).irq_enabled = d.irq_enabled := rfl

@[simp] theorem assign_trace (d : Dev) (b : Bool) :
    (d.assign_irq_enabled b).trace = d.trace ++ [Event.set_irq_enabled b] := rfl

@[simp] theorem assign_irq_enabled_eq (d : Dev) (b : Bool) :
    (d.assign_irq_enabled b).irq_enabled = b := rfl

theorem disable_irq_enabled (d : Dev) : (pn547_disable_irq d).irq_enabled = false := by
  unfold pn547_disable_irq
  cases h : d.irq_enabled <;> simp [h]

theorem disable_trace (d : Dev) :
    (pn547_disable_irq d).trace = d.trace ++
      (if d.irq_enabled then
        [Event.spin_lock_irqsave, Event.disable_irq_nosync, Event.set_irq_enabled false,
         Event.spin_unlock_irqrestore]
       else [Event.spin_lock_irqsave, Event.spin_unlock_irqrestore]) := by
  unfold pn547_disable_irq
  cases h : d.irq_enabled <;> simp [h]

theorem handler_irq_enabled (d : Dev) : (pn547_dev_irq_handler d).1.irq_enabled = false := by
  simp [pn547_dev_irq_handler, disable_irq_enabled]

theorem handler_trace (d : Dev) :
    (pn547_dev_irq_handler d).1.trace = d.trace ++
      (if d.irq_enabled then
        [Event.spin_lock_irqsave, Event.disable_irq_nosync, Event.set_irq_enabled false,
         Event.spin_unlock_irqrestore, Event.wake_up]
       else [Event.spin_lock_irqsave, Event.spin_unlock_irqrestore, Event.wake_up]) := by
  simp only [pn547_dev_irq_handler, emit_trace, disable_trace]
  cases d.irq_enabled <;> simp

/-! ## The interrupt callback -/

/-- C9: the interrupt callback leaves `irq_enabled` false; when the flag was
set it makes exactly one `disable_irq_nosync` call and one assignment (of
false), when it was clear it makes neither; in both cases it publishes exactly
one `wake_up` and makes no bus transfer.  Applying `pn547_disable_irq` twice
leaves the same flag and the same enable/disable call sequence as applying it
once. -/
theorem irq_handler_disarms_iff_armed_and_wakes (d : Dev) :
    (pn547_dev_irq_handler d).1.irq_enabled = false ∧
    (pn547_dev_irq_handler d).1.trace = d.trace ++
      (if d.irq_enabled then
        [Event.spin_lock_irqsave, Event.disable_irq_nosync, Event.set_irq_enabled false,
         Event.spin_unlock_irqrestore, Event.wake_up]
       else [Event.spin_lock_irqsave, Event.spin_unlock_irqrestore, Event.wake_up]) ∧
    bus_events (pn547_dev_irq_handler d).1.trace = bus_events d.trace ∧
    (pn547_disable_irq (pn547_disable_irq d)).irq_enabled =
      (pn547_disable_irq d).irq_enabled ∧
    irq_calls (pn547_disable_irq (pn547_disable_irq d)).trace =
      irq_calls (pn547_disable_irq d).trace := by
  refine ⟨handler_irq_enabled d, handler_trace d, ?_, ?_, ?_⟩
  · rw [handler_trace]
    cases d.irq_enabled <;> simp [bus_events, Event.is_bus]
  · simp [disable_irq_enabled]
  · rw [disable_trace (pn547_disable_irq d), disable_irq_enabled]
    simp [irq_calls, Event.is_irq_call]

/-! ## Waiting -/

theorem handler_filter (p : Event → Bool) (h1 : p Event.spin_lock_irqsave = false)
    (h2 : p Event.spin_unlock_irqrestore = false) (h3 : p Event.disable_irq_nosync = false)
    (h4 : p (Event.set_irq_enabled false) = false) (h5 : p Event.wake_up = false) (d : Dev) :
    (pn547_dev_irq_handler d).1.trace.filter p = d.trace.filter p := by
  rw [handler_trace]
  cases d.irq_enabled <;> simp [List.filter_cons, h1, h2, h3, h4, h5]

theorem disable_filter (p : Event → Bool) (h1 : p Event.spin_lock_irqsave = false)
    (h2 : p Event.spin_unlock_irqrestore = false) (h3 : p Event.disable_irq_nosync = false)
    (h4 : p (Event.set_irq_enabled false) = false) (d : Dev) :
    (pn547_disable_irq d).trace.filter p = d.trace.filter p := by
  rw [disable_trace]
  cases d.irq_enabled <;> simp [List.filter_cons, h1, h2, h3, h4]

theorem handlers_filter (p : Event → Bool) (h1 : p Event.spin_lock_irqsave = false)
    (h2 : p Event.spin_unlock_irqrestore = false) (h3 : p Event.disable_irq_nosync = false)
    (h4 : p (Event.set_irq_enabled false) = false) (h5 : p Event.wake_up = false)
    (n : Nat) (d : Dev) :
    ((fun s => (pn547_dev_irq_handler s).1)^[n] d).trace.filter p = d.trace.filter p := by
  induction n generalizing d with
  | zero => rfl
  | succ n ih =>
    rw [Function.iterate_succ_apply, ih, handler_filter p h1 h2 h3 h4 h5]

theorem wait_filter (p : Event → Bool) (h1 : p Event.spin_lock_irqsave = false)
    (h2 : p Event.spin_unlock_irqrestore = false) (h3 : p Event.disable_irq_nosync = false)
    (h4 : p (Event.set_irq_enabled false) = false) (h5 : p Event.wake_up = false)
    (h6 : p Event.wait_event_interruptible = false) (n : Nat) (d : Dev) :
    (wait_event_interruptible d n).trace.filter p = d.trace.filter p := by
  unfold wait_event_interruptible
  rw [handlers_filter p h1 h2 h3 h4 h5]
  simp [List.filter_cons, h6]

theorem read_mutex_held_unlock (t : List Event) :
    read_mutex_held (t ++ [Event.mutex_unlock]) = false := by
  simp [read_mutex_held, List.foldl_append]

/-! ## read -/

/-- C4: a non-blocking read that finds the interrupt line low returns
`-EAGAIN`; all it does is take `read_mutex`, sample the line and release
`read_mutex`: no bus receive, no assignment to `irq_enabled`, no `enable_irq`,
no wait. -/
theorem read_nonblocking_not_ready (d : Dev) (count : Nat) (env : ReadEnv)
    (hlvl : env.irq_level = 0) (hnb : env.nonblock = true) :
    pn547_dev_read d count env =
      ({ irq_enabled := d.irq_enabled,
         trace := d.trace ++
           [Event.mutex_lock, Event.gpio_get_value Gpio.irq, Event.mutex_unlock] },
       - EAGAIN) := by
  simp [pn547_dev_read, hlvl, hnb, Dev.emit]

theorem read_nonblocking_not_ready_witness :
    pn547_dev_read (dev0 false) 10
        { irq_level := 0, nonblock := true, irqs_in_wait := 0, wait_ret := 0,
          recv_ret := 0, copy_left := 0 } =
      ({ irq_enabled := false,
         trace := [Event.mutex_lock, Event.gpio_get_value Gpio.irq, Event.mutex_unlock] },
       -11) :=
  read_nonblocking_not_ready (dev0 false) 10 _ rfl rfl

/-- C8: a blocking read that finds the line low and whose wait returns a
non-zero code returns that code, leaves `irq_enabled` false, makes no bus
transfer, and ends by releasing `read_mutex`. -/
theorem read_wait_interrupted (d : Dev) (count : Nat) (env : ReadEnv)
    (hlvl : env.irq_level = 0) (hnb : env.nonblock = false) (hret : env.wait_ret ≠ 0) :
    (pn547_dev_read d count env).2 = env.wait_ret ∧
    (pn547_dev_read d count env).1.irq_enabled = false ∧
    bus_events (pn547_dev_read d count env).1.trace = bus_events d.trace ∧
    (pn547_dev_read d count env).1.trace.getLast? = some Event.mutex_unlock ∧
    read_mutex_held (pn547_dev_read d count env).1.trace = false := by
  have hr : pn547_dev_read d count env =
      ((pn547_disable_irq (wait_event_interruptible
          (((d.emit Event.mutex_lock).emit (Event.gpio_get_value Gpio.irq)).assign_irq_enabled
            true |>.emit Event.enable_irq) env.irqs_in_wait)).emit Event.mutex_unlock,
        env.wait_ret) := by
    simp [pn547_dev_read, hlvl, hnb, hret]
  rw [hr]
  refine ⟨rfl, ?_, ?_, ?_, ?_⟩
  · simp [disable_irq_enabled]
  · simp only [bus_events, emit_trace, List.filter_append]
    rw [disable_filter _ rfl rfl rfl rfl, wait_filter _ rfl rfl rfl rfl rfl rfl]
    simp [Event.is_bus]
  · simp
  · simp only [emit_trace]
    exact read_mutex_held_unlock _

theorem read_wait_interrupted_witness :
    (pn547_dev_read (dev0 false) 10
        { irq_level := 0, nonblock := false, irqs_in_wait := 0, wait_ret := -512,
          recv_ret := 0, copy_left := 0 }).2 = -512 ∧
    (pn547_dev_read (dev0 false) 10
        { irq_level := 0, nonblock := false, irqs_in_wait := 0, wait_ret := -512,
          recv_ret := 0, copy_left := 0 }).1.irq_enabled = false :=
  have h := read_wait_interrupted (dev0 false) 10
    { irq_level := 0, nonblock := false, irqs_in_wait := 0, wait_ret := -512,
      recv_ret := 0, copy_left := 0 } rfl rfl (by decide)
  ⟨h.1, h.2.1⟩

theorem to_size_t_of_nonneg (r : Int) (hr : IsInt r) (h0 : 0 ≤ r) :
    to_size_t r = r.toNat := by
  unfold to_size_t SIZE_T_BITS
  unfold IsInt at hr
  have h : r % (2 : Int) ^ 32 = r := Int.emod_eq_of_lt h0 (by norm_num; omega)
  rw [h]

theorem to_size_t_eq_iff (r : Int) (hr : IsInt r) (n : Nat) (hn : n ≤ 512) :
    to_size_t r = n ↔ r = (n : Int) := by
  unfold to_size_t SIZE_T_BITS
  unfold IsInt at hr
  have h2 : (2 : Int) ^ 32 = 4294967296 := by norm_num
  rw [h2]
  omega

theorem read_data_trace_filter (p : Event → Bool) (hu : p Event.mutex_unlock = false)
    (hc : ∀ n, p (Event.copy_to_user n) = false) (d : Dev) (count : Nat) (env : ReadEnv) :
    (pn547_dev_read_data d count env).1.trace.filter p =
      d.trace.filter p ++ [Event.i2c_master_recv count].filter p := by
  unfold pn547_dev_read_data
  dsimp only
  split_ifs <;> simp [List.filter_cons, hu, hc]

theorem read_data_irq_enabled (d : Dev) (count : Nat) (env : ReadEnv) :
    (pn547_dev_read_data d count env).1.irq_enabled = d.irq_enabled := by
  unfold pn547_dev_read_data
  dsimp only
  split_ifs <;> simp

theorem read_ready_eq (d : Dev) (count : Nat) (env : ReadEnv) (hlvl : env.irq_level ≠ 0) :
    pn547_dev_read d count env =
      pn547_dev_read_data ((d.emit Event.mutex_lock).emit (Event.gpio_get_value Gpio.irq))
        (min count MAX_BUFFER_SIZE) env := by
  have hm : (if count > MAX_BUFFER_SIZE then MAX_BUFFER_SIZE else count) =
      min count MAX_BUFFER_SIZE := by
    split_ifs <;> omega
  simp [pn547_dev_read, hlvl, hm]

theorem read_ready_step (d : Dev) (count : Nat) (env : ReadEnv) (hlvl : env.irq_level ≠ 0) :
    (pn547_dev_read d count env).1.irq_enabled = d.irq_enabled ∧
    irq_calls (pn547_dev_read d count env).1.trace = irq_calls d.trace ∧
    flag_writes (pn547_dev_read d count env).1.trace = flag_writes d.trace := by
  rw [read_ready_eq d count env hlvl]
  refine ⟨?_, ?_, ?_⟩
  · simp [read_data_irq_enabled]
  · unfold irq_calls
    rw [read_data_trace_filter _ rfl (fun _ => rfl)]
    simp [Event.is_irq_call]
  · unfold flag_writes
    rw [read_data_trace_filter _ rfl (fun _ => rfl)]
    simp [Event.is_flag_write]

/-- C7: over any sequence of `read` calls (blocking or not) each of which
finds the interrupt line asserted at its readiness check, `irq_enabled` keeps
its value, no assignment to `irq_enabled` is made, and no `enable_irq` or
`disable_irq_nosync` call is made. -/
theorem reads_on_asserted_line_never_arm (d : Dev) (calls : List (Nat × ReadEnv))
    (h : ∀ c ∈ calls, c.2.irq_level ≠ 0) :
    (run_reads d calls).irq_enabled = d.irq_enabled ∧
    irq_calls (run_reads d calls).trace = irq_calls d.trace ∧
    flag_writes (run_reads d calls).trace = flag_writes d.trace := by
  induction calls generalizing d with
  | nil => exact ⟨rfl, rfl, rfl⟩
  | cons c cs ih =>
    have hc := read_ready_step d c.1 c.2 (h c (List.mem_cons_self _ _))
    have hcs := ih (pn547_dev_read d c.1 c.2).1 (fun x hx => h x (List.mem_cons_of_mem _ hx))
    simp only [run_reads, List.foldl_cons] at hcs ⊢
    exact ⟨hcs.1.trans hc.1, hcs.2.1.trans hc.2.1, hcs.2.2.trans hc.2.2⟩

theorem reads_on_asserted_line_never_arm_witness :
    (run_reads (dev0 false)
      [(10, { irq_level := 1, nonblock := false, irqs_in_wait := 0, wait_ret := 0,
              recv_ret := 10, copy_left := 0 }),
       (600, { irq_level := 1, nonblock := true, irqs_in_wait := 0, wait_ret := 0,
               recv_ret := -5, copy_left := 0 })]).irq_enabled = false ∧
    irq_calls (run_reads (dev0 false)
      [(10, { irq_level := 1, nonblock := false, irqs_in_wait := 0, wait_ret := 0,
              recv_ret := 10, copy_left := 0 }),
       (600, { irq_level := 1, nonblock := true, irqs_in_wait := 0, wait_ret := 0,
               recv_ret := -5, copy_left := 0 })]).trace = [] :=
  have h := reads_on_asserted_line_never_arm (dev0 false)
    [(10, { irq_level := 1, nonblock := false, irqs_in_wait := 0, wait_ret := 0,
            recv_ret := 10, copy_left := 0 }),
     (600, { irq_level := 1, nonblock := true, irqs_in_wait := 0, wait_ret := 0,
             recv_ret := -5, copy_left := 0 })]
    (by decide)
  ⟨h.1, h.2.1⟩

theorem read_waited_eq (d : Dev) (count : Nat) (env : ReadEnv) (hlvl : env.irq_level = 0)
    (hnb : env.nonblock = false) (hret : env.wait_ret = 0) :
    pn547_dev_read d count env =
      pn547_dev_read_data
        (pn547_disable_irq (wait_event_interruptible
          ((((d.emit Event.mutex_lock).emit (Event.gpio_get_value Gpio.irq)).assign_irq_enabled
            true).emit Event.enable_irq) env.irqs_in_wait))
        (min count MAX_BUFFER_SIZE) env := by
  have hm : (if count > MAX_BUFFER_SIZE then MAX_BUFFER_SIZE else count) =
      min count MAX_BUFFER_SIZE := by
    split_ifs <;> omega
  simp [pn547_dev_read, hlvl, hnb, hret, hm]

theorem read_data_result (d : Dev) (n : Nat) (env : ReadEnv) (hint : IsInt env.recv_ret) :
    (env.recv_ret < 0 → (pn547_dev_read_data d n env).2 = env.recv_ret) ∧
    ((n : Int) < env.recv_ret → (pn547_dev_read_data d n env).2 = - EIO) ∧
    (0 ≤ env.recv_ret → env.recv_ret ≤ (n : Int) →
      (pn547_dev_read_data d n env).2 =
        if min env.copy_left env.recv_ret.toNat = 0 then env.recv_ret else - EFAULT) := by
  unfold pn547_dev_read_data
  dsimp only
  refine ⟨?_, ?_, ?_⟩
  · intro h
    simp [h]
  · intro h
    have h0 : 0 ≤ env.recv_ret := by omega
    have hs := to_size_t_of_nonneg _ hint h0
    have hgt : to_size_t env.recv_ret > n := by omega
    simp [not_lt.mpr h0, hgt]
  · intro h0 hle
    have hs := to_size_t_of_nonneg _ hint h0
    have hgt : ¬ to_size_t env.recv_ret > n := by omega
    rw [if_neg (not_lt.mpr h0), if_neg hgt]
    split_ifs <;> simp_all

/-- C3 (as the code has it): once the interrupt line is ready (it reads
asserted at the readiness check, or a blocking wait returned 0), `read` makes
exactly one bus receive, of length `min(count, 512)`.  A negative result is
returned unchanged; a result above the capped length gives `-EIO`; a result
between 0 and the capped length is returned when `copy_to_user` copies
everything, and gives `-EFAULT` when it leaves bytes uncopied. -/
theorem read_one_receive_then_checked (d : Dev) (count : Nat) (env : ReadEnv)
    (hready : env.irq_level ≠ 0 ∨ (env.irq_level = 0 ∧ env.nonblock = false ∧ env.wait_ret = 0))
    (hint : IsInt env.recv_ret) :
    bus_events (pn547_dev_read d count env).1.trace =
      bus_events d.trace ++ [Event.i2c_master_recv (min count MAX_BUFFER_SIZE)] ∧
    (env.recv_ret < 0 → (pn547_dev_read d count env).2 = env.recv_ret) ∧
    (((min count MAX_BUFFER_SIZE : Nat) : Int) < env.recv_ret →
      (pn547_dev_read d count env).2 = - EIO) ∧
    (0 ≤ env.recv_ret → env.recv_ret ≤ ((min count MAX_BUFFER_SIZE : Nat) : Int) →
      (pn547_dev_read d count env).2 =
        if min env.copy_left env.recv_ret.toNat = 0 then env.recv_ret else - EFAULT) := by
  rcases hready with hlvl | ⟨hlvl, hnb, hret⟩
  · rw [read_ready_eq d count env hlvl]
    refine ⟨?_, read_data_result _ _ env hint⟩
    unfold bus_events
    rw [read_data_trace_filter _ rfl (fun _ => rfl)]
    simp [Event.is_bus]
  · rw [read_waited_eq d count env hlvl hnb hret]
    refine ⟨?_, read_data_result _ _ env hint⟩
    unfold bus_events
    rw [read_data_trace_filter _ rfl (fun _ => rfl), disable_filter _ rfl rfl rfl rfl,
      wait_filter _ rfl rfl rfl rfl rfl rfl]
    simp [Event.is_bus]

theorem read_one_receive_then_checked_witness :
    bus_events (pn547_dev_read (dev0 false) 600
        { irq_level := 1, nonblock := false, irqs_in_wait := 0, wait_ret := 0,
          recv_ret := 513, copy_left := 0 }).1.trace =
      bus_events (dev0 false).trace ++ [Event.i2c_master_recv (min 600 MAX_BUFFER_SIZE)] ∧
    (pn547_dev_read (dev0 false) 600
        { irq_level := 1, nonblock := false, irqs_in_wait := 0, wait_ret := 0,
          recv_ret := 513, copy_left := 0 }).2 = - EIO :=
  have h := read_one_receive_then_checked (dev0 false) 600
    { irq_level := 1, nonblock := false, irqs_in_wait := 0, wait_ret := 0,
      recv_ret := 513, copy_left := 0 } (Or.inl (by decide)) (by decide)
  ⟨h.1, h.2.2.1 (by decide)⟩

/-- C3 fails as stated: the line is ready, the bus reports 4 bytes for a
request of 10, and `copy_to_user` faults; `read` returns `-EFAULT` (-14), not
the reported length 4. -/
theorem read_copy_fault_is_not_reported_length :
    (0 : Int) ≤ 4 ∧ (4 : Int) ≤ ((min 10 MAX_BUFFER_SIZE : Nat) : Int) ∧
    (pn547_dev_read (dev0 false) 10
        { irq_level := 1, nonblock := false, irqs_in_wait := 0, wait_ret := 0,
          recv_ret := 4, copy_left := 4 }).2 = -14 ∧
    (pn547_dev_read (dev0 false) 10
        { irq_level := 1, nonblock := false, irqs_in_wait := 0, wait_ret := 0,
          recv_ret := 4, copy_left := 4 }).2 ≠ 4 := by
  decide

/-! ## write -/

theorem write_eq_loop (d : Dev) (count : Nat) (env : WriteEnv)
    (hcopy : min env.copy_left (min count MAX_BUFFER_SIZE) = 0) :
    pn547_dev_write d count env =
      pn547_dev_write_loop env (min count MAX_BUFFER_SIZE) 2 0
        (d.emit (Event.copy_from_user (min count MAX_BUFFER_SIZE))) := by
  have hm : (if count > MAX_BUFFER_SIZE then MAX_BUFFER_SIZE else count) =
      min count MAX_BUFFER_SIZE := by
    split_ifs <;> omega
  unfold pn547_dev_write
  simp only [hm]
  rw [if_neg (not_not.mpr hcopy)]

/-- C1 (as the code has it): when the caller's data is copied in, `write`
makes at most 2 bus sends of `min(count, 512)` bytes (the loop counter starts
at 2).  It returns that length if and only if the first or the second send
reports exactly that length; one send is made when the first is accepted, two
otherwise; when neither reports it, `write` returns `-EIO` after exactly 2
sends. -/
theorem write_two_attempts (d : Dev) (count : Nat) (env : WriteEnv)
    (hcopy : min env.copy_left (min count MAX_BUFFER_SIZE) = 0)
    (hint : ∀ k, IsInt (env.send_ret k)) :
    ((pn547_dev_write d count env).2 = ((min count MAX_BUFFER_SIZE : Nat) : Int) ↔
      (env.send_ret 0 = ((min count MAX_BUFFER_SIZE : Nat) : Int) ∨
       env.send_ret 1 = ((min count MAX_BUFFER_SIZE : Nat) : Int))) ∧
    (env.send_ret 0 = ((min count MAX_BUFFER_SIZE : Nat) : Int) →
      bus_events (pn547_dev_write d count env).1.trace =
        bus_events d.trace ++ [Event.i2c_master_send (min count MAX_BUFFER_SIZE)]) ∧
    (env.send_ret 0 ≠ ((min count MAX_BUFFER_SIZE : Nat) : Int) →
      bus_events (pn547_dev_write d count env).1.trace =
        bus_events d.trace ++ [Event.i2c_master_send (min count MAX_BUFFER_SIZE),
          Event.i2c_master_send (min count MAX_BUFFER_SIZE)]) ∧
    (env.send_ret 0 ≠ ((min count MAX_BUFFER_SIZE : Nat) : Int) →
      env.send_ret 1 ≠ ((min count MAX_BUFFER_SIZE : Nat) : Int) →
      (pn547_dev_write d count env).2 = - EIO) := by
  rw [write_eq_loop d count env hcopy]
  have hn : min count MAX_BUFFER_SIZE ≤ 512 := by
    unfold MAX_BUFFER_SIZE
    omega
  generalize min count MAX_BUFFER_SIZE = n at hn ⊢
  have e0 := to_size_t_eq_iff (env.send_ret 0) (hint 0) n hn
  have e1 := to_size_t_eq_iff (env.send_ret 1) (hint 1) n hn
  have hneg : - EIO ≠ (n : Int) := by
    unfold EIO
    omega
  by_cases h0 : env.send_ret 0 = (n : Int)
  · have t0 : to_size_t (env.send_ret 0) = n := e0.mpr h0
    simp only [pn547_dev_write_loop, if_pos t0]
    simp [h0, bus_events, Event.is_bus]
  · have t0 : ¬ to_size_t (env.send_ret 0) = n := fun h => h0 (e0.mp h)
    by_cases h1 : env.send_ret 1 = (n : Int)
    · have t1 : to_size_t (env.send_ret 1) = n := e1.mpr h1
      simp only [pn547_dev_write_loop, if_neg t0, if_pos t1]
      simp [h0, h1, bus_events, Event.is_bus]
    · have t1 : ¬ to_size_t (env.send_ret 1) = n := fun h => h1 (e1.mp h)
      simp only [pn547_dev_write_loop, if_neg t0, if_neg t1]
      simp [h0, h1, hneg, bus_events, Event.is_bus]

theorem write_two_attempts_witness :
    (pn547_dev_write (dev0 false) 3
        { copy_left := 0, send_ret := fun k => if k = 1 then 3 else -5 }).2 =
      ((min 3 MAX_BUFFER_SIZE : Nat) : Int) ∧
    bus_events (pn547_dev_write (dev0 false) 3
        { copy_left := 0, send_ret := fun k => if k = 1 then 3 else -5 }).1.trace =
      bus_events (dev0 false).trace ++ [Event.i2c_master_send (min 3 MAX_BUFFER_SIZE),
        Event.i2c_master_send (min 3 MAX_BUFFER_SIZE)] :=
  have h := write_two_attempts (dev0 false) 3
    { copy_left := 0, send_ret := fun k => if k = 1 then 3 else -5 } (by decide)
    (fun k => by
      show IsInt (if k = 1 then 3 else -5)
      split_ifs <;> decide)
  ⟨h.1.mpr (Or.inr (by decide)), h.2.2.1 (by decide)⟩

/-- C1 fails as stated: against a bus that rejects the first two sends and
would accept the third, `write` of 3 bytes makes exactly 2 sends and returns
`-EIO` (-5); the third attempt is never made. -/
theorem write_gives_up_after_second_send :
    (fun k : Nat => if k = 2 then (3 : Int) else -5) 2 = 3 ∧
    (pn547_dev_write (dev0 false) 3
        { copy_left := 0, send_ret := fun k => if k = 2 then 3 else -5 }).2 = -5 ∧
    (pn547_dev_write (dev0 false) 3
        { copy_left := 0, send_ret := fun k => if k = 2 then 3 else -5 }).1.trace =
      [Event.copy_from_user 3, Event.i2c_master_send 3, Event.msleep 20,
       Event.i2c_master_send 3, Event.msleep 20] := by
  decide

/-! ## ioctl -/

/-- C2 (as the code has it): `ioctl(PN547_SET_PWR, 2)` returns 0 and makes
exactly these calls, in this order: enable = 1, firmware-select = 1, sleep 20,
enable = 0, sleep 60, enable = 1, sleep 20.  Firmware-select is written once,
to 1, after enable is first driven high and before the reset pulse. -/
theorem ioctl_power_on_with_firmware (SET_PWR : Nat) (d : Dev) :
    pn547_dev_ioctl SET_PWR d SET_PWR 2 =
      ({ irq_enabled := d.irq_enabled,
         trace := d.trace ++
           [Event.gpio_set_value Gpio.ven 1, Event.gpio_set_value Gpio.firm 1, Event.msleep 20,
            Event.gpio_set_value Gpio.ven 0, Event.msleep 60,
            Event.gpio_set_value Gpio.ven 1, Event.msleep 20] }, 0) := by
  simp [pn547_dev_ioctl, Dev.emit]

/-- C2 fails as stated: the first GPIO write of `ioctl(PN547_SET_PWR, 2)` is
enable = 1, made while firmware-select has not been written yet, so the log is
not the sequence that starts with firmware-select = 1. -/
theorem ioctl_firmware_drives_enable_first :
    (pn547_dev_ioctl 1074063617 (dev0 false) 1074063617 2).1.trace ≠
      [Event.gpio_set_value Gpio.firm 1, Event.gpio_set_value Gpio.ven 1, Event.msleep 20,
       Event.gpio_set_value Gpio.ven 0, Event.msleep 60,
       Event.gpio_set_value Gpio.ven 1, Event.msleep 20] ∧
    (pn547_dev_ioctl 1074063617 (dev0 false) 1074063617 2).1.trace.head? =
      some (Event.gpio_set_value Gpio.ven 1) := by
  decide

/-- C5: `ioctl` returns 0 exactly for the command `PN547_SET_PWR` with
argument 0, 1 or 2; in every other case it returns `-EINVAL` and leaves the
device and its log untouched (no GPIO write, no delay). -/
theorem ioctl_accepts_exactly_three_pairs (SET_PWR : Nat) (d : Dev) (cmd arg : Nat) :
    ((pn547_dev_ioctl SET_PWR d cmd arg).2 = 0 ↔
      (cmd = SET_PWR ∧ (arg = 0 ∨ arg = 1 ∨ arg = 2))) ∧
    ((pn547_dev_ioctl SET_PWR d cmd arg).2 = 0 ∨
      pn547_dev_ioctl SET_PWR d cmd arg = (d, - EINVAL)) := by
  unfold pn547_dev_ioctl
  dsimp only
  split_ifs <;> simp_all [EINVAL]

/-- C6: `ioctl(PN547_SET_PWR, 1)` makes exactly the calls firmware-select = 0,
enable = 1, sleep 20, and `ioctl(PN547_SET_PWR, 0)` exactly firmware-select =
0, enable = 0, sleep 60; the sleep is the last call before either returns 0. -/
theorem ioctl_power_on_and_off (SET_PWR : Nat) (d : Dev) :
    pn547_dev_ioctl SET_PWR d SET_PWR 1 =
      ({ irq_enabled := d.irq_enabled,
         trace := d.trace ++
           [Event.gpio_set_value Gpio.firm 0, Event.gpio_set_value Gpio.ven 1,
            Event.msleep 20] }, 0) ∧
    pn547_dev_ioctl SET_PWR d SET_PWR 0 =
      ({ irq_enabled := d.irq_enabled,
         trace := d.trace ++
           [Event.gpio_set_value Gpio.firm 0, Event.gpio_set_value Gpio.ven 0,
            Event.msleep 60] }, 0) := by
  simp [pn547_dev_ioctl, Dev.emit]

/-! ## Locking of the flag -/

/-- C10 on the code: in a blocking `read` that finds the line low (here the
handler runs once during the wait and the bus then delivers 10 bytes), the
assignment `irq_enabled = true` of line 100 is made before any
`spin_lock_irqsave`, so the log does not keep every flag write under
`irq_enabled_lock`; the assignments made by `pn547_disable_irq` are all under
the lock. -/
theorem read_arms_outside_irq_enabled_lock :
    (pn547_dev_read (dev0 false) 10
        { irq_level := 0, nonblock := false, irqs_in_wait := 1, wait_ret := 0,
          recv_ret := 10, copy_left := 0 }).1.trace =
      [Event.mutex_lock, Event.gpio_get_value Gpio.irq, Event.set_irq_enabled true,
       Event.enable_irq, Event.wait_event_interruptible,
       Event.spin_lock_irqsave, Event.disable_irq_nosync, Event.set_irq_enabled false,
       Event.spin_unlock_irqrestore, Event.wake_up,
       Event.spin_lock_irqsave, Event.spin_unlock_irqrestore,
       Event.i2c_master_recv 10, Event.mutex_unlock, Event.copy_to_user 10] ∧
    flag_writes_locked false (pn547_dev_read (dev0 false) 10
        { irq_level := 0, nonblock := false, irqs_in_wait := 1, wait_ret := 0,
          recv_ret := 10, copy_left := 0 }).1.trace = false ∧
    flag_writes_locked false (pn547_disable_irq (dev0 true)).trace = true ∧
    flag_writes_locked false (pn547_dev_irq_handler (dev0 true)).1.trace = true := by
  decide

/-! ## probe -/

/-- C11 on the code: (1) when only `gpio_request` of the interrupt line fails
(-16), `probe` goes on and returns 0; (2) when `i2c_check_functionality`
fails, `probe` returns `-ENODEV` (-19) without releasing anything, the
platform data allocated at line 280 included; (3) when `gpio_request` fails
for the interrupt line and then for the enable line, `probe` calls
`gpio_free` on the interrupt line, which it never acquired. -/
theorem probe_unwinding_gaps :
    (pn547_probe (dev0 false) { probe_all_ok with req_irq_gpio := -16 }).2 = some 0 ∧
    pn547_probe (dev0 false) { probe_all_ok with i2c_func_ok := false } =
      ({ irq_enabled := false,
         trace := [Event.kzalloc_pdata, Event.of_get_named_gpio_flags Gpio.irq,
           Event.of_get_named_gpio_flags Gpio.ven, Event.of_get_named_gpio_flags Gpio.firm,
           Event.i2c_check_functionality] }, some (-19)) ∧
    pn547_probe (dev0 false) { probe_all_ok with req_irq_gpio := -16, req_ven_gpio := -16 } =
      ({ irq_enabled := false,
         trace := [Event.kzalloc_pdata, Event.of_get_named_gpio_flags Gpio.irq,
           Event.of_get_named_gpio_flags Gpio.ven, Event.of_get_named_gpio_flags Gpio.firm,
           Event.i2c_check_functionality, Event.gpio_tlmm_config Gpio.irq,
           Event.gpio_tlmm_config Gpio.ven, Event.gpio_tlmm_config Gpio.firm,
           Event.gpio_request Gpio.irq, Event.gpio_request Gpio.ven,
           Event.gpio_free Gpio.irq] }, some (-16)) := by
  decide

/-! ## Arm/disarm balance -/

theorem extends_log_refl (d : Dev) : extends_log d d := ⟨[], by simp⟩

theorem extends_log_trans {a b c : Dev} (h1 : extends_log a b) (h2 : extends_log b c) :
    extends_log a c := by
  obtain ⟨e1, h1⟩ := h1
  obtain ⟨e2, h2⟩ := h2
  exact ⟨e1 ++ e2, by rw [h2, h1, List.append_assoc]⟩

theorem extends_log_emit (d : Dev) (e : Event) : extends_log d (d.emit e) := ⟨[e], rfl⟩

theorem extends_log_assign (d : Dev) (b : Bool) : extends_log d (d.assign_irq_enabled b) :=
  ⟨[Event.set_irq_enabled b], rfl⟩

theorem extends_log_disable (d : Dev) : extends_log d (pn547_disable_irq d) :=
  ⟨_, disable_trace d⟩

theorem extends_log_handler (d : Dev) : extends_log d (pn547_dev_irq_handler d).1 :=
  ⟨_, handler_trace d⟩

theorem extends_log_handlers (n : Nat) (d : Dev) :
    extends_log d ((fun s => (pn547_dev_irq_handler s).1)^[n] d) := by
  induction n generalizing d with
  | zero => exact extends_log_refl d
  | succ n ih =>
    rw [Function.iterate_succ_apply]
    exact extends_log_trans (extends_log_handler d) (ih _)

theorem extends_log_wait (d : Dev) (n : Nat) : extends_log d (wait_event_interruptible d n) :=
  extends_log_trans (extends_log_emit d _) (extends_log_handlers n _)

theorem extends_log_read_data (d : Dev) (count : Nat) (env : ReadEnv) :
    extends_log d (pn547_dev_read_data d count env).1 := by
  unfold pn547_dev_read_data
  dsimp only
  split_ifs
  · exact extends_log_trans (extends_log_emit d _) (extends_log_emit _ _)
  · exact extends_log_trans (extends_log_emit d _) (extends_log_emit _ _)
  · exact extends_log_trans (extends_log_trans (extends_log_emit d _) (extends_log_emit _ _))
      (extends_log_emit _ _)
  · exact extends_log_trans (extends_log_trans (extends_log_emit d _) (extends_log_emit _ _))
      (extends_log_emit _ _)

theorem extends_log_read (d : Dev) (count : Nat) (env : ReadEnv) :
    extends_log d (pn547_dev_read d count env).1 := by
  have h2 : extends_log d ((d.emit Event.mutex_lock).emit (Event.gpio_get_value Gpio.irq)) :=
    extends_log_trans (extends_log_emit d _) (extends_log_emit _ _)
  unfold pn547_dev_read
  dsimp only
  generalize (if count > MAX_BUFFER_SIZE then MAX_BUFFER_SIZE else count) = c
  split_ifs
  · exact extends_log_trans h2 (extends_log_emit _ _)
  · refine extends_log_trans h2 (extends_log_trans (extends_log_assign _ _)
      (extends_log_trans (extends_log_emit _ _) (extends_log_trans (extends_log_wait _ _)
        (extends_log_trans (extends_log_disable _) (extends_log_emit _ _)))))
  · refine extends_log_trans h2 (extends_log_trans (extends_log_assign _ _)
      (extends_log_trans (extends_log_emit _ _) (extends_log_trans (extends_log_wait _ _)
        (extends_log_trans (extends_log_disable _) (extends_log_read_data _ _ _)))))
  · exact extends_log_trans h2 (extends_log_read_data _ _ _)

theorem extends_log_run (d : Dev) (ops : List Op) : extends_log d (run d ops) := by
  induction ops generalizing d with
  | nil => exact extends_log_refl d
  | cons op ops ih =>
    have hs : extends_log d (Op.step d op) := by
      cases op with
      | read count env => exact extends_log_read d count env
      | irq => exact extends_log_handler d
    simp only [run, List.foldl_cons]
    exact extends_log_trans hs (ih _)

theorem balanced_refl (d : Dev) : balanced d d := by
  unfold balanced
  omega

theorem balanced_trans {a b c : Dev} (h1 : balanced a b) (h2 : balanced b c) :
    balanced a c := by
  unfold balanced at *
  omega

theorem balanced_disable (d : Dev) : balanced d (pn547_disable_irq d) := by
  unfold balanced
  rw [disable_trace, disable_irq_enabled]
  cases d.irq_enabled <;> simp [List.count_append, List.count_cons]
  omega

theorem balanced_handler (d : Dev) : balanced d (pn547_dev_irq_handler d).1 := by
  unfold balanced
  rw [handler_trace, handler_irq_enabled]
  cases d.irq_enabled <;> simp [List.count_append, List.count_cons]
  omega

theorem balanced_handlers (n : Nat) (d : Dev) :
    balanced d ((fun s => (pn547_dev_irq_handler s).1)^[n] d) := by
  induction n generalizing d with
  | zero => exact balanced_refl d
  | succ n ih =>
    rw [Function.iterate_succ_apply]
    exact balanced_trans (balanced_handler d) (ih _)

theorem balanced_emit (d : Dev) (e : Event) (h1 : e ≠ Event.enable_irq)
    (h2 : e ≠ Event.disable_irq_nosync) : balanced d (d.emit e) := by
  unfold balanced
  simp [List.count_append, List.count_cons, h1, h2]

theorem balanced_wait (d : Dev) (n : Nat) : balanced d (wait_event_interruptible d n) :=
  balanced_trans (balanced_emit d _ (by decide) (by decide)) (balanced_handlers n _)

theorem balanced_arm (d : Dev) (h : d.irq_enabled = false) :
    balanced d ((d.assign_irq_enabled true).emit Event.enable_irq) := by
  unfold balanced
  simp [List.count_append, List.count_cons, h]
  omega

theorem balanced_read_data (d : Dev) (count : Nat) (env : ReadEnv) :
    balanced d (pn547_dev_read_data d count env).1 := by
  unfold pn547_dev_read_data
  dsimp only
  split_ifs <;>
    simp [balanced, List.count_append, List.count_cons]

theorem read_keeps_disarmed (d : Dev) (count : Nat) (env : ReadEnv)
    (h : d.irq_enabled = false) :
    (pn547_dev_read d count env).1.irq_enabled = false ∧
    balanced d (pn547_dev_read d count env).1 := by
  have b2 : balanced d ((d.emit Event.mutex_lock).emit (Event.gpio_get_value Gpio.irq)) :=
    balanced_trans (balanced_emit d _ (by decide) (by decide))
      (balanced_emit _ _ (by decide) (by decide))
  have b5 : balanced d (pn547_disable_irq (wait_event_interruptible
      ((((d.emit Event.mutex_lock).emit (Event.gpio_get_value Gpio.irq)).assign_irq_enabled
        true).emit Event.enable_irq) env.irqs_in_wait)) :=
    balanced_trans b2 (balanced_trans (balanced_arm _ (by simpa using h))
      (balanced_trans (balanced_wait _ _) (balanced_disable _)))
  unfold pn547_dev_read
  dsimp only
  generalize (if count > MAX_BUFFER_SIZE then MAX_BUFFER_SIZE else count) = c
  split_ifs
  · exact ⟨by simpa using h, balanced_trans b2 (balanced_emit _ _ (by decide) (by decide))⟩
  · exact ⟨by simp [disable_irq_enabled],
      balanced_trans b5 (balanced_emit _ _ (by decide) (by decide))⟩
  · exact ⟨by simp [read_data_irq_enabled, disable_irq_enabled],
      balanced_trans b5 (balanced_read_data _ _ _)⟩
  · exact ⟨by simpa [read_data_irq_enabled] using h,
      balanced_trans b2 (balanced_read_data _ _ _)⟩

theorem run_keeps_disarmed (d : Dev) (ops : List Op) (h : d.irq_enabled = false) :
    (run d ops).irq_enabled = false ∧ balanced d (run d ops) := by
  induction ops generalizing d with
  | nil => exact ⟨h, balanced_refl d⟩
  | cons op ops ih =>
    have hs : (Op.step d op).irq_enabled = false ∧ balanced d (Op.step d op) := by
      cases op with
      | read count env => exact read_keeps_disarmed d count env h
      | irq => exact ⟨handler_irq_enabled d, balanced_handler d⟩
    have hr := ih (Op.step d op) hs.1
    simp only [run, List.foldl_cons] at hr ⊢
    exact ⟨hr.1, balanced_trans hs.2 hr.2⟩

theorem parse_dt_ok (d : Dev) (env : ProbeEnv) (h : (pn547_parse_dt d env).2 = 0) :
    (pn547_parse_dt d env).1 =
      ((d.emit (Event.of_get_named_gpio_flags Gpio.irq)).emit
        (Event.of_get_named_gpio_flags Gpio.ven)).emit
        (Event.of_get_named_gpio_flags Gpio.firm) := by
  unfold pn547_parse_dt at h ⊢
  dsimp only at h ⊢
  split_ifs at h ⊢ with h1 h2 h3
  · exact absurd h (by omega)
  · exact absurd h (by omega)
  · exact absurd h (by omega)
  · rfl

theorem probe_success_state (d0 : Dev) (penv : ProbeEnv)
    (h : (pn547_probe d0 penv).2 = some 0) :
    (pn547_probe d0 penv).1 =
      { irq_enabled := false,
        trace := d0.trace ++
          [Event.kzalloc_pdata, Event.of_get_named_gpio_flags Gpio.irq,
           Event.of_get_named_gpio_flags Gpio.ven, Event.of_get_named_gpio_flags Gpio.firm,
           Event.i2c_check_functionality, Event.gpio_tlmm_config Gpio.irq,
           Event.gpio_tlmm_config Gpio.ven, Event.gpio_tlmm_config Gpio.firm,
           Event.gpio_request Gpio.irq, Event.gpio_request Gpio.ven,
           Event.gpio_direction_output Gpio.ven 0, Event.gpio_request Gpio.firm,
           Event.gpio_direction_output Gpio.firm 0, Event.kzalloc_dev,
           Event.init_waitqueue_head, Event.mutex_init, Event.spin_lock_init,
           Event.misc_register, Event.set_irq_enabled true, Event.request_irq,
           Event.spin_lock_irqsave, Event.disable_irq_nosync, Event.set_irq_enabled false,
           Event.spin_unlock_irqrestore, Event.i2c_set_clientdata] } := by
  unfold pn547_probe at h ⊢
  dsimp only at h ⊢
  have hp := parse_dt_ok (d0.emit Event.kzalloc_pdata) penv
  generalize pn547_parse_dt (d0.emit Event.kzalloc_pdata) penv = p at h hp ⊢
  split_ifs at h ⊢ with c1 c2 c3 c4 c5 c6 c7 c8
  · exact absurd h (by simpa [err_dt, err_firm, err_ven] using c2)
  · exact absurd h (by simp [ENODEV])
  · exact absurd h (by simpa [err_ven] using c4)
  · exact absurd h (by simpa [err_firm, err_ven] using c5)
  · exact absurd h (by simp [err_exit, err_dt, err_firm, err_ven, ENOMEM])
  · exact absurd h (by simpa [err_misc_register, err_exit, err_dt, err_firm, err_ven] using c7)
  · exact absurd h (by
      simpa [err_request_irq_failed, err_misc_register, err_exit, err_dt, err_firm, err_ven]
        using c8)
  · rw [not_not] at c2
    rw [hp c2]
    simp [pn547_disable_irq, Dev.emit, Dev.assign_irq_enabled]

theorem emitted_of_append (a b : Dev) (evs : List Event) (h : b.trace = a.trace ++ evs) :
    emitted a b = evs := by
  unfold emitted
  rw [h]
  simp

/-- C12: from the state a successful `probe` leaves (`irq_enabled` false, no
`enable_irq` call and exactly one `disable_irq_nosync` call made by `probe`),
after any finite sequence of completed `read` calls (any length, mode and
kernel answers) and interrupt-handler runs executed one after another,
`irq_enabled` is false and the calls made since `probe` contain as many
`enable_irq` as `disable_irq_nosync`. -/
theorem arm_disarm_balanced_after_probe (d0 : Dev) (penv : ProbeEnv) (ops : List Op)
    (hprobe : (pn547_probe d0 penv).2 = some 0) :
    (pn547_probe d0 penv).1.irq_enabled = false ∧
    (emitted d0 (pn547_probe d0 penv).1).count Event.enable_irq = 0 ∧
    (emitted d0 (pn547_probe d0 penv).1).count Event.disable_irq_nosync = 1 ∧
    (run (pn547_probe d0 penv).1 ops).irq_enabled = false ∧
    (emitted (pn547_probe d0 penv).1 (run (pn547_probe d0 penv).1 ops)).count
        Event.enable_irq =
      (emitted (pn547_probe d0 penv).1 (run (pn547_probe d0 penv).1 ops)).count
        Event.disable_irq_nosync := by
  have hs := probe_success_state d0 penv hprobe
  have h0 : (pn547_probe d0 penv).1.irq_enabled = false := by rw [hs]
  have hr := run_keeps_disarmed (pn547_probe d0 penv).1 ops h0
  obtain ⟨evs, he⟩ := extends_log_run (pn547_probe d0 penv).1 ops
  refine ⟨h0, ?_, ?_, hr.1, ?_⟩
  · rw [emitted_of_append d0 _ _ (by rw [hs])]
    decide
  · rw [emitted_of_append d0 _ _ (by rw [hs])]
    decide
  · rw [emitted_of_append _ _ evs he]
    have hb := hr.2
    unfold balanced at hb
    rw [he, hr.1, h0] at hb
    simp only [List.count_append] at hb
    simp at hb
    omega

theorem arm_disarm_balanced_after_probe_witness :
    (run (pn547_probe (dev0 false) probe_all_ok).1
      [Op.read 10 { irq_level := 0, nonblock := false, irqs_in_wait := 1, wait_ret := 0,
                    recv_ret := 10, copy_left := 0 },
       Op.irq,
       Op.read 10 { irq_level := 0, nonblock := true, irqs_in_wait := 0, wait_ret := 0,
                    recv_ret := 0, copy_left := 0 },
       Op.read 10 { irq_level := 0, nonblock := false, irqs_in_wait := 0, wait_ret := -512,
                    recv_ret := 0, copy_left := 0 }]).irq_enabled = false ∧
    (emitted (pn547_probe (dev0 false) probe_all_ok).1
      (run (pn547_probe (dev0 false) probe_all_ok).1
        [Op.read 10 { irq_level := 0, nonblock := false, irqs_in_wait := 1, wait_ret := 0,
                      recv_ret := 10, copy_left := 0 },
         Op.irq,
         Op.read 10 { irq_level := 0, nonblock := true, irqs_in_wait := 0, wait_ret := 0,
                      recv_ret := 0, copy_left := 0 },
         Op.read 10 { irq_level := 0, nonblock := false, irqs_in_wait := 0, wait_ret := -512,
                      recv_ret := 0, copy_left := 0 }])).count Event.enable_irq =
    (emitted (pn547_probe (dev0 false) probe_all_ok).1
      (run (pn547_probe (dev0 false) probe_all_ok).1
        [Op.read 10 { irq_level := 0, nonblock := false, irqs_in_wait := 1, wait_ret := 0,
                      recv_ret := 10, copy_left := 0 },
         Op.irq,
         Op.read 10 { irq_level := 0, nonblock := true, irqs_in_wait := 0, wait_ret := 0,
                      recv_ret := 0, copy_left := 0 },
         Op.read 10 { irq_level := 0, nonblock := false, irqs_in_wait := 0, wait_ret := -512,
                      recv_ret := 0, copy_left := 0 }])).count Event.disable_irq_nosync :=
  have h := arm_disarm_balanced_after_probe (dev0 false) probe_all_ok
    [Op.read 10 { irq_level := 0, nonblock := false, irqs_in_wait := 1, wait_ret := 0,
                  recv_ret := 10, copy_left := 0 },
     Op.irq,
     Op.read 10 { irq_level := 0, nonblock := true, irqs_in_wait := 0, wait_ret := 0,
                  recv_ret := 0, copy_left := 0 },
     Op.read 10 { irq_level := 0, nonblock := false, irqs_in_wait := 0, wait_ret := -512,
                  recv_ret := 0, copy_left := 0 }]
    (by decide)
  ⟨h.2.2.2.1, h.2.2.2.2⟩

end Pn547
